import Mathlib

/-!
Gemini Live voice chat: upstream session client and browser client.

A shallow embedding of `src/proxy.js` (class `GeminiLiveSession`) and of the
browser script `src/app.js`, followed by the properties established about them.

Conventions of the embedding:

* JavaScript values that travel as frames are `JVal` trees (what `JSON.parse`
  returns and `JSON.stringify` accepts).  A number is known by what the code
  can observe of it.
* Built-ins whose result depends on the engine are inputs of the handlers.
* The page elements the script looks up exist.
* A socket records every message handed to its `send` in `sent`, oldest first.
* A handler that can raise returns the raised error next to the state reached.
-/

/-! ## JavaScript values and `JSON.stringify` -/

/-- A JavaScript number, known by what the code observes of it: the text `Number::toString`
gives for it, whether it is finite, and whether it is falsy (a zero or `NaN`). -/
structure JSNumber where
  text : String
  finite : Bool
  falsy : Bool
deriving DecidableEq, Repr

/-- A JSON-shaped JavaScript value.  `obj` lists the own properties in the
order `JSON.stringify` enumerates them; the keys of one object are distinct. -/
inductive JVal where
  | null
  | bool (b : Bool)
  | num (n : JSNumber)
  | str (s : String)
  | arr (xs : List JVal)
  | obj (kvs : List (String × JVal))
deriving Repr

/-- Lower-case hexadecimal digit of a value below sixteen. -/
def hexDigit (n : Nat) : Char :=
  if n < 10 then Char.ofNat (48 + n) else Char.ofNat (87 + n)

/-- The escape `\uXXXX` that `JSON.stringify` writes for a control character. -/
def unicodeEscape (c : Char) : String :=
  String.mk [Char.ofNat 92, 'u', hexDigit (c.toNat / 4096 % 16), hexDigit (c.toNat / 256 % 16),
    hexDigit (c.toNat / 16 % 16), hexDigit (c.toNat % 16)]

/-- One character of a string as `JSON.stringify` writes it (ECMAScript
QuoteJSONString): the short escapes, `\u00XX` for other control characters,
the character itself otherwise. -/
def quoteChar (c : Char) : String :=
  if c.toNat = 8 then String.mk [Char.ofNat 92, 'b']
  else if c.toNat = 9 then String.mk [Char.ofNat 92, 't']
  else if c.toNat = 10 then String.mk [Char.ofNat 92, 'n']
  else if c.toNat = 12 then String.mk [Char.ofNat 92, 'f']
  else if c.toNat = 13 then String.mk [Char.ofNat 92, 'r']
  else if c.toNat = 34 then String.mk [Char.ofNat 92, Char.ofNat 34]
  else if c.toNat = 92 then String.mk [Char.ofNat 92, Char.ofNat 92]
  else if c.toNat < 32 then unicodeEscape c
  else String.singleton c

/-- A string as a JSON string literal, double quotes included. -/
def quoteJSONString (s : String) : String :=
  "\"" ++ String.join (s.data.map quoteChar) ++ "\""

mutual
/-- The text `JSON.stringify(v)` returns (no indentation argument). -/
def JSON.stringify : JVal → String
  | .null => "null"
  | .bool b => if b then "true" else "false"
  | .num n => if n.finite then n.text else "null"
  | .str s => quoteJSONString s
  | .arr xs => "[" ++ JSON.stringifyElems xs ++ "]"
  | .obj kvs => "\x7b" ++ JSON.stringifyProps kvs ++ "\x7d"
/-- The elements of an array, separated by commas. -/
def JSON.stringifyElems : List JVal → String
  | [] => ""
  | [x] => JSON.stringify x
  | x :: y :: rest => JSON.stringify x ++ "," ++ JSON.stringifyElems (y :: rest)
/-- The `"key":value` members of an object, separated by commas. -/
def JSON.stringifyProps : List (String × JVal) → String
  | [] => ""
  | [(k, v)] => quoteJSONString k ++ ":" ++ JSON.stringify v
  | (k, v) :: p :: rest =>
    quoteJSONString k ++ ":" ++ JSON.stringify v ++ "," ++ JSON.stringifyProps (p :: rest)
end

/-! ## The upstream session client (`src/proxy.js`) -/

/-- The `readyState` of a WebSocket. -/
inductive ReadyState where
  | CONNECTING
  | OPEN
  | CLOSING
  | CLOSED
deriving DecidableEq, Repr

/-- A listener registered on the upstream socket: the setup handler that
`connect` installs for `open`, or a callback of the owner added through `on`. -/
inductive Listener where
  | setupOnOpen
  | external (event : String)
deriving DecidableEq, Repr

/-- The `ws` client socket as `GeminiLiveSession` observes it. -/
structure UpstreamSocket where
  url : String
  perMessageDeflate : Bool
  readyState : ReadyState
  listeners : List Listener
  sent : List String
deriving DecidableEq, Repr

/-- The fields the constructor of `GeminiLiveSession` assigns. -/
structure GeminiLiveSession where
  apiKey : String
  model : String
  systemPromptPath : String
  ws : Option UpstreamSocket
  isOpen : Bool
deriving DecidableEq, Repr

/-- A session together with what the event loop holds for it: the number of
open handlers suspended at `await fs.readFile(...)` and the number of sockets
constructed so far. -/
structure Runtime where
  session : GeminiLiveSession
  awaitingRead : Nat
  socketsCreated : Nat
deriving DecidableEq, Repr

/-- The constructor: `ws = null`, `isOpen = false`. -/
def GeminiLiveSession.new (apiKey model systemPromptPath : String) : Runtime :=
  { session := { apiKey := apiKey, model := model, systemPromptPath := systemPromptPath,
                 ws := none, isOpen := false },
    awaitingRead := 0, socketsCreated := 0 }

/-- Upper-case hexadecimal digit of a value below sixteen. -/
def hexUpper (n : Nat) : Char :=
  if n < 10 then Char.ofNat (48 + n) else Char.ofNat (55 + n)

/-- Characters `encodeURIComponent` leaves as they are. -/
def uriUnreserved (c : Char) : Bool :=
  c.isAlphanum || [45, 95, 46, 33, 126, 42, 39, 40, 41].contains c.toNat

/-- The built-in `encodeURIComponent`: every other character becomes the
percent-escapes of its UTF-8 bytes. -/
def encodeURIComponent (s : String) : String :=
  String.join (s.data.map fun c =>
    if uriUnreserved c then String.singleton c
    else String.join ((String.utf8EncodeChar c).map fun b =>
      String.mk ['%', hexUpper (b.toNat / 16), hexUpper (b.toNat % 16)]))

/-- The endpoint `connect` dials. -/
def liveUrl (apiKey : String) : String :=
  "wss://generativelanguage.googleapis.com/v1beta/live:connect?key=" ++ encodeURIComponent apiKey

/-- The method `connect()`: returns at once when a socket exists; otherwise constructs
the socket and registers the setup handler for `open`. -/
def GeminiLiveSession.connect (rt : Runtime) : Runtime :=
  match rt.session.ws with
  | some _ => rt
  | none =>
    { rt with
      session := { rt.session with
        ws := some { url := liveUrl rt.session.apiKey, perMessageDeflate := false,
                     readyState := ReadyState.CONNECTING, listeners := [Listener.setupOnOpen],
                     sent := [] } },
      socketsCreated := rt.socketsCreated + 1 }

/-- The library call `ws.send(data)`: raises while the handshake is pending, hands the message
to the wire when open, and discards it once the socket is closing or closed. -/
def UpstreamSocket.send (w : UpstreamSocket) (data : String) : Except String UpstreamSocket :=
  match w.readyState with
  | ReadyState.CONNECTING => Except.error "WebSocket is not open: readyState 0 (CONNECTING)"
  | ReadyState.OPEN => Except.ok { w with sent := w.sent ++ [data] }
  | ReadyState.CLOSING => Except.ok w
  | ReadyState.CLOSED => Except.ok w

/-- The number literal `16000`. -/
def sampleRate16000 : JSNumber :=
  { text := "16000", finite := true, falsy := false }

/-- The object literal `setup` built in the open handler. -/
def setupObject (model system : String) : JVal :=
  .obj [("setup", .obj [
    ("model", .str model),
    ("instructions", .str system),
    ("response", .obj [
      ("modalities", .arr [.str "AUDIO", .str "TEXT"]),
      ("audio", .obj [("format", .str "pcm_s16le"), ("sampleRateHertz", .num sampleRate16000)])])])]

/-- The open handler up to its `await`: sets `isOpen` and starts reading the prompt file. -/
def onOpen (rt : Runtime) : Runtime :=
  { rt with session := { rt.session with isOpen := true }, awaitingRead := rt.awaitingRead + 1 }

/-- The open handler after its `await`, given the outcome of `fs.readFile` (`none` when the
read fails, which rejects the handler): builds the setup object and sends its serialisation. -/
def onOpenResume (read : Option String) (rt : Runtime) : Except String Runtime :=
  match read with
  | none => Except.error "ENOENT"
  | some system =>
    match rt.session.ws with
    | none => Except.error "TypeError: Cannot read properties of null (reading send)"
    | some w =>
      match w.send (JSON.stringify (setupObject rt.session.model system)) with
      | Except.error e => Except.error e
      | Except.ok w1 => Except.ok { rt with session := { rt.session with ws := some w1 } }

/-- A frame handed to `send`: any JSON-shaped value, a string included. -/
abbrev Frame := JVal

/-- The expression `typeof frame === "string" ? frame : JSON.stringify(frame)`. -/
def wire : Frame → String
  | .str s => s
  | .null => JSON.stringify .null
  | .bool b => JSON.stringify (.bool b)
  | .num n => JSON.stringify (.num n)
  | .arr xs => JSON.stringify (.arr xs)
  | .obj kvs => JSON.stringify (.obj kvs)

/-- The method `send(frame)`. -/
def GeminiLiveSession.send (frame : Frame) (rt : Runtime) : Except String Runtime :=
  match rt.session.ws with
  | none => Except.ok rt
  | some w =>
    if w.readyState ≠ ReadyState.OPEN then Except.ok rt
    else
      match w.send (wire frame) with
      | Except.error e => Except.error e
      | Except.ok w1 => Except.ok { rt with session := { rt.session with ws := some w1 } }

/-- The method `on(event, cb)`: registers on the socket when there is one. -/
def GeminiLiveSession.on (event : String) (rt : Runtime) : Runtime :=
  match rt.session.ws with
  | none => rt
  | some w =>
    { rt with session := { rt.session with
        ws := some { w with listeners := w.listeners ++ [Listener.external event] } } }

/-- The library call `ws.close()`: nothing on a closed socket, otherwise the socket is closing.
`raises` says whether the call then raises (closing during the handshake emits an
error event, which raises when nobody listens for it). -/
def UpstreamSocket.close (raises : Bool) (w : UpstreamSocket) : Except String Unit × UpstreamSocket :=
  match w.readyState with
  | ReadyState.CLOSED => (Except.ok (), w)
  | _ =>
    (if raises then Except.error "WebSocket was closed before the connection was established"
     else Except.ok (),
     { w with readyState := ReadyState.CLOSING })

/-- The method `close()`: calls `this.ws?.close()` inside `try`, with an empty `catch`. -/
def GeminiLiveSession.close (raises : Bool) (rt : Runtime) : Except String Runtime :=
  match rt.session.ws with
  | none => Except.ok rt
  | some w =>
    match w.close raises with
    | (Except.ok _, w1) => Except.ok { rt with session := { rt.session with ws := some w1 } }
    | (Except.error _, w1) => Except.ok { rt with session := { rt.session with ws := some w1 } }

/-- The transport finishes its handshake: the socket becomes open and its `open`
listeners run, each setup handler as far as its `await`. -/
def transportOpen (rt : Runtime) : Runtime :=
  match rt.session.ws with
  | none => rt
  | some w =>
    if w.readyState ≠ ReadyState.CONNECTING then rt
    else
      (w.listeners.filter (· = Listener.setupOnOpen)).foldl (fun r _ => onOpen r)
        { rt with session := { rt.session with ws := some { w with readyState := ReadyState.OPEN } } }

/-- What can happen to a session. -/
inductive Event where
  | connect
  | transportOpen
  | readDone (read : Option String)
  | send (frame : Frame)
  | close (raises : Bool)
deriving Repr

/-- The state after an `Except`-valued call made from the event loop: an error that
escapes a call leaves the state as the call found it. -/
def settle (rt : Runtime) (r : Except String Runtime) : Runtime :=
  match r with
  | Except.ok rt1 => rt1
  | Except.error _ => rt

/-- One event.  A prompt read can only complete while a handler awaits it. -/
def step (rt : Runtime) : Event → Runtime
  | .connect => GeminiLiveSession.connect rt
  | .transportOpen => transportOpen rt
  | .readDone read =>
    if rt.awaitingRead = 0 then rt
    else
      settle { rt with awaitingRead := rt.awaitingRead - 1 }
        (onOpenResume read { rt with awaitingRead := rt.awaitingRead - 1 })
  | .send frame => settle rt (GeminiLiveSession.send frame rt)
  | .close raises => settle rt (GeminiLiveSession.close raises rt)

/-- A sequence of events, in order. -/
def run (rt : Runtime) (events : List Event) : Runtime :=
  events.foldl step rt

/-- The messages written to the upstream socket so far, oldest first. -/
def upstreamWrites (rt : Runtime) : List String :=
  match rt.session.ws with
  | none => []
  | some w => w.sent

/-- Consecutive calls of `send`, stopping at the first one that raises. -/
def sendAll (rt : Runtime) : List Frame → Except String Runtime
  | [] => Except.ok rt
  | f :: fs =>
    match GeminiLiveSession.send f rt with
    | Except.error e => Except.error e
    | Except.ok rt1 => sendAll rt1 fs

/-! ## The browser client (`src/app.js`) -/

mutual
/-- The string a value converts to (`ToString`), as used by template literals, by `atob` and
by the `textContent` setter; `none` when the conversion raises `TypeError`.  A parsed object
converts through `Object.prototype.toString` unless an own `toString` property, which cannot
be a function, hides it. -/
def JVal.toStr : JVal → Option String
  | .null => some "null"
  | .bool b => some (if b then "true" else "false")
  | .num n => some n.text
  | .str s => some s
  | .arr xs => JVal.joinStr xs
  | .obj kvs => if kvs.any (fun kv => kv.1 == "toString") then none else some "[object Object]"
/-- The method `Array.prototype.join` with a comma, which `ToString` of an array calls. -/
def JVal.joinStr : List JVal → Option String
  | [] => some ""
  | [x] => JVal.elemStr x
  | x :: y :: rest =>
    match JVal.elemStr x, JVal.joinStr (y :: rest) with
    | some a, some b => some (a ++ "," ++ b)
    | _, _ => none
/-- One element inside `join`: `null` contributes nothing, anything else its string. -/
def JVal.elemStr : JVal → Option String
  | .null => some ""
  | .bool b => some (if b then "true" else "false")
  | .num n => some n.text
  | .str s => some s
  | .arr xs => JVal.joinStr xs
  | .obj kvs => if kvs.any (fun kv => kv.1 == "toString") then none else some "[object Object]"
end

/-- Whether a parsed message is `null`. -/
def JVal.isNull : JVal → Bool
  | .null => true
  | _ => false

/-- Property read `msg.key` on a value that is not `null`: own properties of an object,
`undefined` (here `none`) on anything else for the keys this script reads. -/
def JVal.get (msg : JVal) (key : String) : Option JVal :=
  match msg with
  | .obj kvs => kvs.lookup key
  | _ => none

/-- JavaScript truthiness of a property that may be `undefined`. -/
def truthy : Option JVal → Bool
  | none => false
  | some .null => false
  | some (.bool b) => b
  | some (.num n) => !n.falsy
  | some (.str s) => s != ""
  | some (.arr _) => true
  | some (.obj _) => true

/-- Value of a character of the base64 alphabet. -/
def base64Value (c : Char) : Option Nat :=
  if 65 ≤ c.toNat ∧ c.toNat ≤ 90 then some (c.toNat - 65)
  else if 97 ≤ c.toNat ∧ c.toNat ≤ 122 then some (c.toNat - 71)
  else if 48 ≤ c.toNat ∧ c.toNat ≤ 57 then some (c.toNat + 4)
  else if c.toNat = 43 then some 62
  else if c.toNat = 47 then some 63
  else none

/-- Bytes of a sequence of six-bit values: three bytes per four values, the spare bits
of a final group of two or three dropped. -/
def base64Bytes : List Nat → List Nat
  | a :: b :: c :: d :: rest =>
    (a * 4 + b / 16) :: (b % 16 * 16 + c / 4) :: (c % 4 * 64 + d) :: base64Bytes rest
  | [a, b, c] => [a * 4 + b / 16, b % 16 * 16 + c / 4]
  | [a, b] => [a * 4 + b / 16]
  | _ => []

/-- Removes one or two trailing `=` from data whose length is a multiple of four. -/
def stripPadding (cs : List Char) : List Char :=
  if cs.length % 4 = 0 then
    match cs.reverse with
    | '=' :: '=' :: rest => rest.reverse
    | '=' :: rest => rest.reverse
    | _ => cs
  else cs

/-- The built-in `atob` (forgiving base64 decoding), giving the char codes of the binary
string it returns; `none` when it raises `InvalidCharacterError`. -/
def atob (s : String) : Option (List Nat) :=
  let cs := stripPadding (s.data.filter fun c => !([9, 10, 12, 13, 32].contains c.toNat))
  if cs.length % 4 = 1 then none
  else (cs.mapM base64Value).map base64Bytes

/-- The payload of a message event, also what `playPCM16` receives as `buffer`. -/
inductive BufferLike where
  | text (s : String)
  | arrayBuffer (bytes : List Nat)
  | blob (bytes : List Nat)
deriving DecidableEq, Repr

/-- A `Uint8Array`, as the list of its elements. -/
structure Uint8Array where
  bytes : List Nat
deriving DecidableEq, Repr

/-- The built-ins whose result depends on the engine.  `parse` is `JSON.parse` on a string,
`none` when it raises `SyntaxError`.  `arrayLength s` is the length `new Uint8Array(s)` gives
for a string `s` (the string is read as a number), `none` when that raises `RangeError`. -/
structure Builtins where
  parse : String → Option JVal
  arrayLength : String → Option Nat

/-- The constructor `new Uint8Array(buffer)`: a view of the bytes of an `ArrayBuffer`; an empty
array for a `Blob`, which is an object without elements or length; for a string, zeroes of the
length the engine reads from it, or `RangeError`. -/
def Uint8Array.new (env : Builtins) : BufferLike → Except String Uint8Array
  | .arrayBuffer bytes => Except.ok { bytes := bytes }
  | .blob _ => Except.ok { bytes := [] }
  | .text s =>
    match env.arrayLength s with
    | none => Except.error "RangeError: Invalid typed array length"
    | some n => Except.ok { bytes := List.replicate n 0 }

/-- A `div` created by `addBubble`. -/
structure Bubble where
  className : String
  textContent : String
deriving DecidableEq, Repr

/-- State of the `MediaRecorder`. -/
inductive RecorderState where
  | inactive
  | recording
  | paused
deriving DecidableEq, Repr

/-- The browser socket. -/
structure ClientSocket where
  readyState : ReadyState
  sent : List String
deriving DecidableEq, Repr

/-- The module variables of the script and the page elements it touches.  A media
stream is the list of its tracks, `true` for a track that is still live. -/
structure ClientState where
  startBtnDisabled : Bool
  stopBtnDisabled : Bool
  interruptBtnDisabled : Bool
  lang : String
  youEl : List Bubble
  revEl : List Bubble
  ttsSrc : Option (List Uint8Array)
  ttsPaused : Bool
  ttsCurrentTime : Nat
  mediaStream : Option (List Bool)
  mediaRecorder : Option RecorderState
  ws : Option ClientSocket
  speaking : Bool
  pendingAudioChunks : List Uint8Array
deriving DecidableEq, Repr

/-- The state a handler leaves and the error it raised, if any. -/
structure Outcome where
  state : ClientState
  thrown : Option String
deriving DecidableEq, Repr

/-- Which conversation pane a bubble goes to. -/
inductive Pane where
  | you
  | rev
deriving DecidableEq, Repr

/-- The function `addBubble(target, text, who)`: assigning `text` to `textContent` converts it
to a string, which can raise before the bubble is appended. -/
def addBubble (target : Pane) (text : JVal) (who : String) (st : ClientState) :
    Except String ClientState :=
  match text.toStr with
  | none => Except.error "TypeError: Cannot convert object to primitive value"
  | some t =>
    match target with
    | Pane.you =>
      Except.ok { st with youEl := st.youEl ++ [{ className := "bubble " ++ who, textContent := t }] }
    | Pane.rev =>
      Except.ok { st with revEl := st.revEl ++ [{ className := "bubble " ++ who, textContent := t }] }

/-- The function `setSpeaking(on)`. -/
def setSpeaking (isOn : Bool) (st : ClientState) : ClientState :=
  { st with speaking := isOn, interruptBtnDisabled := !isOn }

/-- The function `playPCM16(buffer)`: pushes `new Uint8Array(buffer)` and points the audio
element at a blob of all pending chunks. -/
def playPCM16 (env : Builtins) (buffer : BufferLike) (st : ClientState) : Except String ClientState :=
  match Uint8Array.new env buffer with
  | Except.error e => Except.error e
  | Except.ok chunk =>
    Except.ok { st with
      pendingAudioChunks := st.pendingAudioChunks ++ [chunk],
      ttsSrc := some (st.pendingAudioChunks ++ [chunk]) }

/-- The browser call `ws.send(data)`: raises while connecting, sends when open, discards after. -/
def ClientSocket.send (w : ClientSocket) (data : String) : Except String ClientSocket :=
  match w.readyState with
  | ReadyState.CONNECTING => Except.error "InvalidStateError"
  | ReadyState.OPEN => Except.ok { w with sent := w.sent ++ [data] }
  | ReadyState.CLOSING => Except.ok w
  | ReadyState.CLOSED => Except.ok w

/-- The browser call `ws.close()` without arguments: an open or connecting socket starts closing. -/
def ClientSocket.close (w : ClientSocket) : ClientSocket :=
  match w.readyState with
  | ReadyState.CLOSING => w
  | ReadyState.CLOSED => w
  | _ => { w with readyState := ReadyState.CLOSING }

/-- The handler `ws.onopen` up to `await getUserMedia(...)`. -/
def onopen (st : ClientState) : ClientState :=
  { st with startBtnDisabled := true, stopBtnDisabled := false, interruptBtnDisabled := true }

/-- The message announcing the start of the dialogue. -/
def startMessage (lang : String) : JVal :=
  .obj [("input", .obj [("event", .str "start"), ("language", .str lang)])]

/-- The handler `ws.onopen` after its `await`, given the tracks of the granted stream (`none`
when permission is refused): keeps the stream, starts a recorder, sends the start message. -/
def onopenResume (granted : Option (List Bool)) (st : ClientState) : Outcome :=
  match granted with
  | none => { state := st, thrown := some "NotAllowedError" }
  | some tracks =>
    let st1 := { st with mediaStream := some tracks, mediaRecorder := some RecorderState.recording }
    match st1.ws with
    | none => { state := st1, thrown := some "TypeError" }
    | some w =>
      match w.send (JSON.stringify (startMessage st1.lang)) with
      | Except.error e => { state := st1, thrown := some e }
      | Except.ok w1 => { state := { st1 with ws := some w1 }, thrown := none }

/-- The call `JSON.parse(ev.data)`, `none` when it raises: data that is not a string is first
converted to one (`[object Blob]`, `[object ArrayBuffer]`), which never parses. -/
def parseData (env : Builtins) : BufferLike → Option JVal
  | .text s => env.parse s
  | .arrayBuffer _ => none
  | .blob _ => none

/-- The test `v === "response.end"` on a property that may be `undefined`. -/
def isResponseEnd : Option JVal → Bool
  | some (.str s) => s == "response.end"
  | _ => false

/-- The branch `if (msg.transcript) addBubble(youEl, msg.transcript, "you")`. -/
def showTranscript (msg : JVal) (st : ClientState) : Except String ClientState :=
  match msg.get "transcript" with
  | none => Except.ok st
  | some t => if truthy (some t) then addBubble Pane.you t "you" st else Except.ok st

/-- The branch `if (msg.responseText) addBubble(revEl, msg.responseText, "rev")`. -/
def showResponseText (msg : JVal) (st : ClientState) : Except String ClientState :=
  match msg.get "responseText" with
  | none => Except.ok st
  | some t => if truthy (some t) then addBubble Pane.rev t "rev" st else Except.ok st

/-- The branch `if (msg.audioChunk)`: `atob` converts its argument to a string and decodes it,
the bytes go to `playPCM16` as an `ArrayBuffer`, then `setSpeaking(true)`. -/
def playAudioChunk (env : Builtins) (msg : JVal) (st : ClientState) : Except String ClientState :=
  match msg.get "audioChunk" with
  | none => Except.ok st
  | some c =>
    if truthy (some c) then
      match c.toStr with
      | none => Except.error "TypeError: Cannot convert object to primitive value"
      | some s =>
        match atob s with
        | none => Except.error "InvalidCharacterError"
        | some bytes =>
          match playPCM16 env (BufferLike.arrayBuffer bytes) st with
          | Except.error e => Except.error e
          | Except.ok st1 => Except.ok (setSpeaking true st1)
    else Except.ok st

/-- The branch `if (msg.event === "response.end")`. -/
def endResponse (msg : JVal) (st : ClientState) : ClientState :=
  if isResponseEnd (msg.get "event") then { setSpeaking false st with pendingAudioChunks := [] }
  else st

/-- The branch `if (msg.error)`: the template literal converts the value to a string first. -/
def showError (msg : JVal) (st : ClientState) : Except String ClientState :=
  match msg.get "error" with
  | none => Except.ok st
  | some e =>
    if truthy (some e) then
      match e.toStr with
      | none => Except.error "TypeError: Cannot convert object to primitive value"
      | some s => addBubble Pane.rev (JVal.str ("Error: " ++ s)) "rev" st
    else Except.ok st

/-- The body of `ws.onmessage` after a successful parse to a value that is not `null`: the
branches in source order, stopping at the first that raises. -/
def handleMessage (env : Builtins) (msg : JVal) (st : ClientState) : Outcome :=
  match showTranscript msg st with
  | Except.error e => { state := st, thrown := some e }
  | Except.ok st1 =>
    match showResponseText msg st1 with
    | Except.error e => { state := st1, thrown := some e }
    | Except.ok st2 =>
      match playAudioChunk env msg st2 with
      | Except.error e => { state := st2, thrown := some e }
      | Except.ok st3 =>
        match showError msg (endResponse msg st3) with
        | Except.error e => { state := endResponse msg st3, thrown := some e }
        | Except.ok st5 => { state := st5, thrown := none }

/-- The handler `ws.onmessage`, for the payload `data` of the event.  Data that does not
parse is played as a chunk; reading a property of a parsed `null` raises. -/
def onmessage (env : Builtins) (data : BufferLike) (st : ClientState) : Outcome :=
  match parseData env data with
  | none =>
    match playPCM16 env data st with
    | Except.error e => { state := st, thrown := some e }
    | Except.ok st1 => { state := setSpeaking true st1, thrown := none }
  | some msg =>
    if msg.isNull then
      { state := st, thrown := some "TypeError: Cannot read properties of null" }
    else handleMessage env msg st

/-- The call `mediaRecorder.stop()`: an inactive recorder raises `InvalidStateError`. -/
def RecorderState.stop : RecorderState → Except String RecorderState
  | .inactive => Except.error "InvalidStateError"
  | _ => Except.ok RecorderState.inactive

/-- The function `stop()`. -/
def stop (st : ClientState) : Outcome :=
  let st1 := { st with startBtnDisabled := false, stopBtnDisabled := true, interruptBtnDisabled := true }
  let st2 :=
    match st1.mediaRecorder with
    | none => st1
    | some r =>
      match r.stop with
      | Except.ok r1 => { st1 with mediaRecorder := some r1 }
      | Except.error _ => st1
  let st3 := { st2 with mediaStream := st2.mediaStream.map fun (tracks : List Bool) => tracks.map fun _ => false }
  match st3.ws with
  | none => { state := st3, thrown := none }
  | some w =>
    if w.readyState = ReadyState.OPEN then { state := { st3 with ws := some w.close }, thrown := none }
    else { state := st3, thrown := none }

/-- The message `interrupt()` sends. -/
def interruptMessage : JVal :=
  .obj [("control", .obj [("event", .str "interrupt")])]

/-- The function `interrupt()`. -/
def interrupt (st : ClientState) : Outcome :=
  match st.ws with
  | none => { state := st, thrown := none }
  | some w =>
    if w.readyState ≠ ReadyState.OPEN then { state := st, thrown := none }
    else
      match w.send (JSON.stringify interruptMessage) with
      | Except.error e => { state := st, thrown := some e }
      | Except.ok w1 =>
        { state := setSpeaking false
            { st with ws := some w1, ttsPaused := true, ttsCurrentTime := 0, pendingAudioChunks := [] },
          thrown := none }

/-- The interrupt button is enabled only while the speaking flag is set. -/
def InterruptOnlyWhileSpeaking (st : ClientState) : Prop :=
  st.interruptBtnDisabled = false → st.speaking = true


/-- A property that is falsy, or converts to a string: showing it raises nothing. -/
def displays : Option JVal → Bool
  | none => true
  | some v => !truthy (some v) || v.toStr.isSome

/-- A property that is falsy, or converts to a string that is valid base64. -/
def decodes : Option JVal → Bool
  | none => true
  | some v =>
    !truthy (some v) ||
      (match v.toStr with
       | none => false
       | some s => (atob s).isSome)
/-! ## Reference serialisations and sample inputs -/

/-- The setup message as the interface description writes it: the object
`{ setup: { model, instructions, response: { modalities: ["AUDIO","TEXT"],
audio: { format: "pcm_s16le", sampleRateHertz: 16000 } } } }` in JSON text, with the model
identifier and the instruction text as JSON string literals. -/
def setupWireText (model system : String) : String :=
  "\x7b\"setup\":\x7b\"model\":" ++ quoteJSONString model
    ++ ",\"instructions\":" ++ quoteJSONString system
    ++ ",\"response\":\x7b\"modalities\":[\"AUDIO\",\"TEXT\"],\"audio\":\x7b\"format\":\"pcm_s16le\",\"sampleRateHertz\":16000\x7d\x7d\x7d\x7d"

/-- The interrupt control frame in JSON text. -/
def interruptWireText : String :=
  "\x7b\"control\":\x7b\"event\":\"interrupt\"\x7d\x7d"

/-- A session whose socket is open and which has sent nothing yet. -/
def openRuntime : Runtime :=
  { session := { apiKey := "k", model := "m", systemPromptPath := "prompt.txt",
                 ws := some { url := liveUrl "k", perMessageDeflate := false,
                              readyState := ReadyState.OPEN, listeners := [Listener.setupOnOpen],
                              sent := [] },
                 isOpen := true },
    awaitingRead := 1, socketsCreated := 1 }

/-- A browser client that is connected, recording and listening. -/
def listeningClient : ClientState :=
  { startBtnDisabled := true, stopBtnDisabled := false, interruptBtnDisabled := true,
    lang := "en", youEl := [], revEl := [], ttsSrc := none, ttsPaused := false,
    ttsCurrentTime := 0, mediaStream := some [true], mediaRecorder := some RecorderState.recording,
    ws := some { readyState := ReadyState.OPEN, sent := [] },
    speaking := false, pendingAudioChunks := [] }

/-- A browser client in the middle of a spoken response. -/
def speakingClient : ClientState :=
  { listeningClient with
    interruptBtnDisabled := false, speaking := true,
    pendingAudioChunks := [{ bytes := [104, 105] }],
    ttsSrc := some [{ bytes := [104, 105] }] }

/-- The wire form of a frame in the words of the interface description: a frame that is
already a string goes out as it is, any other frame as its `JSON.stringify` text. -/
def wireForm (f : Frame) : String :=
  match f with
  | JVal.str s => s
  | other => JSON.stringify other

/-- Sample built-ins: `JSON.parse` on the four message texts used as sample inputs, any other
text counting as unparseable, and an engine that reads length zero from every string. -/
def sampleBuiltins : Builtins :=
  { parse := fun s =>
      if s = "\x7b\"responseText\":\"hi\"\x7d" then some (.obj [("responseText", .str "hi")])
      else if s = "\x7b\"audioChunk\":\"aGk=\"\x7d" then some (.obj [("audioChunk", .str "aGk=")])
      else if s = "\x7b\"audioChunk\":\"aGk=\",\"event\":\"response.end\"\x7d" then
        some (.obj [("audioChunk", .str "aGk="), ("event", .str "response.end")])
      else if s = "null" then some .null
      else none,
    arrayLength := fun _ => some 0 }

/-! ## Auxiliary lemmas -/

theorem stringify_setupObject (m s : String) :
    JSON.stringify (setupObject m s) = setupWireText m s := by
  have h1 : JSON.stringify (JVal.obj [("modalities", .arr [.str "AUDIO", .str "TEXT"]),
      ("audio", .obj [("format", .str "pcm_s16le"), ("sampleRateHertz", .num sampleRate16000)])])
      = "\x7b\"modalities\":[\"AUDIO\",\"TEXT\"],\"audio\":\x7b\"format\":\"pcm_s16le\",\"sampleRateHertz\":16000\x7d\x7d" := by
    decide
  have k1 : quoteJSONString "setup" = "\"setup\"" := by decide
  have k2 : quoteJSONString "model" = "\"model\"" := by decide
  have k3 : quoteJSONString "instructions" = "\"instructions\"" := by decide
  have k4 : quoteJSONString "response" = "\"response\"" := by decide
  unfold setupObject setupWireText
  simp only [JSON.stringify, JSON.stringifyProps] at h1 ⊢
  rw [h1, k1, k2, k3, k4]
  apply String.ext
  simp [String.data_append]

theorem send_of_not_open (frame : Frame) (rt : Runtime)
    (h : ∀ w, rt.session.ws = some w → w.readyState ≠ ReadyState.OPEN) :
    GeminiLiveSession.send frame rt = Except.ok rt := by
  unfold GeminiLiveSession.send
  cases hw : rt.session.ws with
  | none => rfl
  | some w => simp [h w hw]

theorem wire_eq_wireForm (f : Frame) : wire f = wireForm f := by
  cases f <;> rfl

theorem send_of_open (frame : Frame) (rt : Runtime) (w : UpstreamSocket)
    (hw : rt.session.ws = some w) (ho : w.readyState = ReadyState.OPEN) :
    GeminiLiveSession.send frame rt
      = Except.ok { rt with session := { rt.session with
          ws := some { w with sent := w.sent ++ [wire frame] } } } := by
  unfold GeminiLiveSession.send
  simp [hw, ho, UpstreamSocket.send]

/-! ## Properties of the upstream session client -/

/-- C1, evaluated on the code: a frame passed to `send` after the transport opened and before
the prompt file has been read is written to the socket ahead of the setup message, so the
setup message is the second write, not the first. -/
theorem setup_written_after_frame_sent_during_prompt_read :
    upstreamWrites (run (GeminiLiveSession.new "k" "m" "prompt.txt")
        [Event.connect, Event.transportOpen, Event.send (startMessage "en"),
         Event.readDone (some "Be brief.")])
      = ["\x7b\"input\":\x7b\"event\":\"start\",\"language\":\"en\"\x7d\x7d",
         setupWireText "m" "Be brief."] := by
  decide

/-- C2: `send(frame)` on a session that has no socket, or whose socket is not open, returns
normally with the session exactly as it was (nothing is written, nothing is queued), and
whatever happens afterwards, the transport opening included, unfolds as if the call had never
been made. -/
theorem send_when_not_open_is_dropped (frame : Frame) (rt : Runtime)
    (h : ∀ w, rt.session.ws = some w → w.readyState ≠ ReadyState.OPEN) :
    GeminiLiveSession.send frame rt = Except.ok rt
      ∧ upstreamWrites (step rt (Event.send frame)) = upstreamWrites rt
      ∧ ∀ events : List Event, run rt (Event.send frame :: events) = run rt events := by
  have hs : step rt (Event.send frame) = rt := by
    simp [step, send_of_not_open frame rt h, settle]
  refine ⟨send_of_not_open frame rt h, by rw [hs], ?_⟩
  intro events
  simp [run, List.foldl, hs]

theorem send_when_not_open_is_dropped_witness :
    GeminiLiveSession.send (JVal.str "hello") (GeminiLiveSession.connect (GeminiLiveSession.new "k" "m" "p"))
        = Except.ok (GeminiLiveSession.connect (GeminiLiveSession.new "k" "m" "p"))
      ∧ upstreamWrites (step (GeminiLiveSession.connect (GeminiLiveSession.new "k" "m" "p"))
          (Event.send (JVal.str "hello")))
        = upstreamWrites (GeminiLiveSession.connect (GeminiLiveSession.new "k" "m" "p"))
      ∧ ∀ events : List Event,
          run (GeminiLiveSession.connect (GeminiLiveSession.new "k" "m" "p"))
              (Event.send (JVal.str "hello") :: events)
            = run (GeminiLiveSession.connect (GeminiLiveSession.new "k" "m" "p")) events :=
  send_when_not_open_is_dropped (JVal.str "hello")
    (GeminiLiveSession.connect (GeminiLiveSession.new "k" "m" "p")) (by decide)

/-- C3: frames passed to `send` one after another while the socket is open are written to the
socket one message per frame, in the order of the calls, after what had been written before:
a frame that is a string as that string, any other frame as its `JSON.stringify` text; no call
raises and nothing else in the session changes. -/
theorem sends_while_open_written_in_order (frames : List Frame) (rt : Runtime) (w : UpstreamSocket)
    (hw : rt.session.ws = some w) (ho : w.readyState = ReadyState.OPEN) :
    sendAll rt frames
      = Except.ok { rt with session := { rt.session with
          ws := some { w with sent := w.sent ++ frames.map wireForm } } } := by
  induction frames generalizing rt w with
  | nil =>
    obtain ⟨⟨apiKey, model, path, ws, isOpen⟩, awaiting, created⟩ := rt
    simp only at hw
    subst hw
    simp [sendAll]
  | cons f fs ih =>
    rw [sendAll, send_of_open f rt w hw ho]
    simp only
    rw [ih _ { w with sent := w.sent ++ [wire f] } rfl ho, wire_eq_wireForm]
    simp [List.append_assoc]

theorem sends_while_open_written_in_order_witness :
    sendAll openRuntime
        [JVal.str "a", JVal.obj [("n", JVal.num { text := "1", finite := true, falsy := false })],
         JVal.str "a"]
      = Except.ok { openRuntime with session := { openRuntime.session with
          ws := some { url := liveUrl "k", perMessageDeflate := false,
                       readyState := ReadyState.OPEN, listeners := [Listener.setupOnOpen],
                       sent := [] ++ [JVal.str "a",
                         JVal.obj [("n", JVal.num { text := "1", finite := true, falsy := false })],
                         JVal.str "a"].map wireForm } } }
      ∧ [] ++ [JVal.str "a",
            JVal.obj [("n", JVal.num { text := "1", finite := true, falsy := false })],
            JVal.str "a"].map wireForm
          = ["a", "\x7b\"n\":1\x7d", "a"] :=
  ⟨sends_while_open_written_in_order _ openRuntime
    { url := liveUrl "k", perMessageDeflate := false, readyState := ReadyState.OPEN,
      listeners := [Listener.setupOnOpen], sent := [] } rfl rfl, by decide⟩

/-- C4: when the prompt file reads as `system`, the open handler writes exactly one message to
the open socket, and that message is the JSON text of
`{ setup: { model, instructions: system, response: { modalities: ["AUDIO","TEXT"],
audio: { format: "pcm_s16le", sampleRateHertz: 16000 } } } }` with the keys in this order and
no other field. -/
theorem setup_message_is_serialised_setup_object (system : String) (rt : Runtime)
    (w : UpstreamSocket) (hw : rt.session.ws = some w) (ho : w.readyState = ReadyState.OPEN) :
    onOpenResume (some system) rt
      = Except.ok { rt with session := { rt.session with
          ws := some { w with sent := w.sent ++ [setupWireText rt.session.model system] } } } := by
  unfold onOpenResume
  simp [hw, ho, UpstreamSocket.send, stringify_setupObject]

theorem setup_message_is_serialised_setup_object_witness :
    onOpenResume (some "Be brief.") openRuntime
      = Except.ok { openRuntime with session := { openRuntime.session with
          ws := some { url := liveUrl "k", perMessageDeflate := false,
                       readyState := ReadyState.OPEN, listeners := [Listener.setupOnOpen],
                       sent := [] ++ [setupWireText openRuntime.session.model "Be brief."] } } } :=
  setup_message_is_serialised_setup_object "Be brief." openRuntime
    { url := liveUrl "k", perMessageDeflate := false, readyState := ReadyState.OPEN,
      listeners := [Listener.setupOnOpen], sent := [] } rfl rfl

/-- C5: `connect()` on a session that already holds a socket changes nothing (no socket is
constructed, no listener is added, every field keeps its value), and calling `connect()` twice
gives the state that calling it once gives. -/
theorem connect_idempotent (rt : Runtime) :
    (rt.session.ws ≠ none → GeminiLiveSession.connect rt = rt)
      ∧ GeminiLiveSession.connect (GeminiLiveSession.connect rt) = GeminiLiveSession.connect rt := by
  constructor
  · intro h
    unfold GeminiLiveSession.connect
    cases hw : rt.session.ws with
    | none => exact absurd hw h
    | some w => rfl
  · cases hw : rt.session.ws with
    | none => simp [GeminiLiveSession.connect, hw]
    | some w => simp [GeminiLiveSession.connect, hw]

theorem connect_idempotent_witness :
    GeminiLiveSession.connect openRuntime = openRuntime
      ∧ GeminiLiveSession.connect (GeminiLiveSession.connect (GeminiLiveSession.new "k" "m" "p"))
          = GeminiLiveSession.connect (GeminiLiveSession.new "k" "m" "p") :=
  ⟨(connect_idempotent openRuntime).1 (by decide),
   (connect_idempotent (GeminiLiveSession.new "k" "m" "p")).2⟩

/-- C6: `close()` returns normally from every state of the session, also when the transport's
`close` raises, and a second `close()` returns normally and leaves the state the first call
produced; likewise the browser's `stop()` raises nothing, also when the recorder's `stop`
raises, and a second `stop()` reproduces the state of the first. -/
theorem close_and_stop_twice_no_error (rt : Runtime) (raises1 raises2 : Bool) (st : ClientState) :
    (∃ rt1, GeminiLiveSession.close raises1 rt = Except.ok rt1
        ∧ GeminiLiveSession.close raises2 rt1 = Except.ok rt1)
      ∧ (stop st).thrown = none
      ∧ stop (stop st).state = { state := (stop st).state, thrown := none } := by
  refine ⟨?_, ?_, ?_⟩
  · obtain ⟨⟨apiKey, model, path, ws, isOpen⟩, awaiting, created⟩ := rt
    cases ws with
    | none => exact ⟨_, rfl, rfl⟩
    | some w =>
      obtain ⟨url, pmd, rs, ls, sent⟩ := w
      cases rs <;> cases raises1 <;> cases raises2 <;> exact ⟨_, rfl, rfl⟩
  · unfold stop
    simp only
    split <;> try split
    all_goals rfl
  · obtain ⟨b1, b2, b3, lang, you, rev, src, paused, time, stream, rec, ws, speaking, pending⟩ := st
    cases stream <;> cases rec with
    | none =>
      cases ws with
      | none => simp [stop]
      | some w =>
        obtain ⟨rs, sent⟩ := w
        cases rs <;> simp [stop, ClientSocket.close]
    | some r =>
      cases ws with
      | none => cases r <;> simp [stop, RecorderState.stop]
      | some w =>
        obtain ⟨rs, sent⟩ := w
        cases r <;> cases rs <;> simp [stop, ClientSocket.close, RecorderState.stop]

/-! ## Properties of the browser client -/

theorem stringify_interruptMessage : JSON.stringify interruptMessage = interruptWireText := by
  decide

/-- C7: with the socket open, one call of `interrupt()` sends exactly one message, the JSON
text of `{control:{event:"interrupt"}}`, and the same call, which raises nothing and waits for
nothing, leaves the speaking flag false and the pending playback buffer empty. -/
theorem interrupt_sends_once_and_stops_speaking (st : ClientState) (w : ClientSocket)
    (hw : st.ws = some w) (ho : w.readyState = ReadyState.OPEN) :
    (interrupt st).thrown = none
      ∧ (interrupt st).state.ws = some { w with sent := w.sent ++ [interruptWireText] }
      ∧ (interrupt st).state.speaking = false
      ∧ (interrupt st).state.pendingAudioChunks = [] := by
  unfold interrupt
  simp [hw, ho, ClientSocket.send, stringify_interruptMessage, setSpeaking]

theorem interrupt_sends_once_and_stops_speaking_witness :
    speakingClient.speaking = true
      ∧ (interrupt speakingClient).thrown = none
      ∧ (interrupt speakingClient).state.ws
          = some { readyState := ReadyState.OPEN, sent := [] ++ [interruptWireText] }
      ∧ (interrupt speakingClient).state.speaking = false
      ∧ (interrupt speakingClient).state.pendingAudioChunks = [] :=
  ⟨rfl, interrupt_sends_once_and_stops_speaking speakingClient
    { readyState := ReadyState.OPEN, sent := [] } rfl rfl⟩

theorem addBubble_keeps (p : Pane) (text : JVal) (who : String) (s s1 : ClientState)
    (h : addBubble p text who s = Except.ok s1) :
    s1.speaking = s.speaking
      ∧ s1.pendingAudioChunks = s.pendingAudioChunks
      ∧ s1.interruptBtnDisabled = s.interruptBtnDisabled
      ∧ (p = Pane.you → s1.revEl = s.revEl)
      ∧ (p = Pane.rev → ∃ t, text.toStr = some t
          ∧ s1.revEl = s.revEl ++ [{ className := "bubble " ++ who, textContent := t }]) := by
  unfold addBubble at h
  cases ht : text.toStr with
  | none => simp [ht] at h
  | some t =>
    cases p with
    | you =>
      simp only [ht, Except.ok.injEq] at h
      subst h
      exact ⟨rfl, rfl, rfl, fun _ => rfl, fun hp => by cases hp⟩
    | rev =>
      simp only [ht, Except.ok.injEq] at h
      subst h
      exact ⟨rfl, rfl, rfl, fun hp => (by cases hp), fun _ => ⟨t, rfl, rfl⟩⟩

theorem showTranscript_keeps (msg : JVal) (s s1 : ClientState)
    (h : showTranscript msg s = Except.ok s1) :
    s1.speaking = s.speaking
      ∧ s1.pendingAudioChunks = s.pendingAudioChunks
      ∧ s1.interruptBtnDisabled = s.interruptBtnDisabled
      ∧ s1.revEl = s.revEl := by
  unfold showTranscript at h
  cases hg : msg.get "transcript" with
  | none =>
    simp only [hg, Except.ok.injEq] at h
    subst h
    exact ⟨rfl, rfl, rfl, rfl⟩
  | some t =>
    simp only [hg] at h
    cases ht : truthy (some t) with
    | false =>
      simp only [ht, Bool.false_eq_true, if_false, Except.ok.injEq] at h
      subst h
      exact ⟨rfl, rfl, rfl, rfl⟩
    | true =>
      simp only [ht, if_true] at h
      obtain ⟨h1, h2, h3, h4, -⟩ := addBubble_keeps _ _ _ _ _ h
      exact ⟨h1, h2, h3, h4 rfl⟩

theorem showResponseText_keeps (msg : JVal) (s s1 : ClientState)
    (h : showResponseText msg s = Except.ok s1) :
    s1.speaking = s.speaking
      ∧ s1.pendingAudioChunks = s.pendingAudioChunks
      ∧ s1.interruptBtnDisabled = s.interruptBtnDisabled
      ∧ (∀ r, msg.get "responseText" = some r → truthy (some r) = true →
          ∃ t, r.toStr = some t
            ∧ s1.revEl = s.revEl ++ [{ className := "bubble rev", textContent := t }]) := by
  unfold showResponseText at h
  cases hg : msg.get "responseText" with
  | none =>
    simp only [hg, Except.ok.injEq] at h
    subst h
    exact ⟨rfl, rfl, rfl, fun r hr => by cases hr⟩
  | some t =>
    simp only [hg] at h
    cases ht : truthy (some t) with
    | false =>
      simp only [ht, Bool.false_eq_true, if_false, Except.ok.injEq] at h
      subst h
      refine ⟨rfl, rfl, rfl, fun r hr hr2 => ?_⟩
      cases hr
      rw [ht] at hr2
      cases hr2
    | true =>
      simp only [ht, if_true] at h
      obtain ⟨h1, h2, h3, -, h5⟩ := addBubble_keeps _ _ _ _ _ h
      refine ⟨h1, h2, h3, fun r hr _ => ?_⟩
      cases hr
      exact h5 rfl

theorem playAudioChunk_ok (env : Builtins) (msg : JVal) (s s1 : ClientState)
    (h : playAudioChunk env msg s = Except.ok s1) :
    s1.revEl = s.revEl
      ∧ (truthy (msg.get "audioChunk") = false → s1 = s)
      ∧ (∀ c, msg.get "audioChunk" = some c → truthy (some c) = true →
          s1.speaking = true ∧ s1.interruptBtnDisabled = false
            ∧ ∃ text bytes, c.toStr = some text ∧ atob text = some bytes
                ∧ s1.pendingAudioChunks = s.pendingAudioChunks ++ [{ bytes := bytes }]) := by
  unfold playAudioChunk at h
  cases hg : msg.get "audioChunk" with
  | none =>
    simp only [hg, Except.ok.injEq] at h
    subst h
    exact ⟨rfl, fun _ => rfl, fun c hc => by cases hc⟩
  | some c =>
    simp only [hg] at h
    cases ht : truthy (some c) with
    | false =>
      simp only [ht, Bool.false_eq_true, if_false, Except.ok.injEq] at h
      subst h
      refine ⟨rfl, fun _ => rfl, fun c1 hc hc2 => ?_⟩
      cases hc
      rw [ht] at hc2
      cases hc2
    | true =>
      simp only [ht, if_true] at h
      cases hs : c.toStr with
      | none => simp [hs] at h
      | some text =>
        simp only [hs] at h
        cases hb : atob text with
        | none => simp [hb] at h
        | some bytes =>
          simp only [hb, playPCM16, Uint8Array.new, Except.ok.injEq] at h
          subst h
          refine ⟨rfl, fun hf => (by cases hf), fun c1 hc _ => ?_⟩
          cases hc
          exact ⟨rfl, rfl, text, bytes, hs, hb, rfl⟩

theorem endResponse_end (msg : JVal) (s : ClientState)
    (h : isResponseEnd (msg.get "event") = true) :
    (endResponse msg s).speaking = false
      ∧ (endResponse msg s).pendingAudioChunks = []
      ∧ (endResponse msg s).interruptBtnDisabled = true := by
  simp [endResponse, h, setSpeaking]

theorem endResponse_not_end (msg : JVal) (s : ClientState)
    (h : isResponseEnd (msg.get "event") = false) : endResponse msg s = s := by
  simp [endResponse, h]

theorem endResponse_revEl (msg : JVal) (s : ClientState) :
    (endResponse msg s).revEl = s.revEl := by
  unfold endResponse
  split <;> rfl

theorem showError_keeps (msg : JVal) (s s1 : ClientState)
    (h : showError msg s = Except.ok s1) :
    s1.speaking = s.speaking
      ∧ s1.pendingAudioChunks = s.pendingAudioChunks
      ∧ s1.interruptBtnDisabled = s.interruptBtnDisabled
      ∧ ∃ rest, s1.revEl = s.revEl ++ rest := by
  unfold showError at h
  cases hg : msg.get "error" with
  | none =>
    simp only [hg, Except.ok.injEq] at h
    subst h
    exact ⟨rfl, rfl, rfl, [], by simp⟩
  | some e =>
    simp only [hg] at h
    cases ht : truthy (some e) with
    | false =>
      simp only [ht, Bool.false_eq_true, if_false, Except.ok.injEq] at h
      subst h
      exact ⟨rfl, rfl, rfl, [], by simp⟩
    | true =>
      simp only [ht, if_true] at h
      cases hs : e.toStr with
      | none => simp [hs] at h
      | some text =>
        simp only [hs] at h
        obtain ⟨h1, h2, h3, -, h5⟩ := addBubble_keeps _ _ _ _ _ h
        obtain ⟨t, -, h6⟩ := h5 rfl
        exact ⟨h1, h2, h3, _, h6⟩

theorem handleMessage_returned (env : Builtins) (msg : JVal) (st : ClientState)
    (h : (handleMessage env msg st).thrown = none) :
    ∃ s1 s2 s3, showTranscript msg st = Except.ok s1
      ∧ showResponseText msg s1 = Except.ok s2
      ∧ playAudioChunk env msg s2 = Except.ok s3
      ∧ showError msg (endResponse msg s3) = Except.ok (handleMessage env msg st).state := by
  unfold handleMessage at h ⊢
  cases h1 : showTranscript msg st with
  | error e => simp [h1] at h
  | ok s1 =>
    simp only [h1] at h ⊢
    cases h2 : showResponseText msg s1 with
    | error e => simp [h2] at h
    | ok s2 =>
      simp only [h2] at h ⊢
      cases h3 : playAudioChunk env msg s2 with
      | error e => simp [h3] at h
      | ok s3 =>
        simp only [h3] at h ⊢
        cases h4 : showError msg (endResponse msg s3) with
        | error e => simp [h4] at h
        | ok s5 => exact ⟨s1, s2, s3, rfl, h2, h3, h4⟩

theorem addBubble_returns (p : Pane) (text : JVal) (who : String) (s : ClientState)
    (h : text.toStr.isSome = true) : ∃ s1, addBubble p text who s = Except.ok s1 := by
  unfold addBubble
  cases ht : text.toStr with
  | none => simp [ht] at h
  | some t => cases p <;> exact ⟨_, rfl⟩

theorem showTranscript_returns (msg : JVal) (s : ClientState)
    (h : displays (msg.get "transcript") = true) : ∃ s1, showTranscript msg s = Except.ok s1 := by
  unfold showTranscript
  cases hg : msg.get "transcript" with
  | none => exact ⟨_, rfl⟩
  | some t =>
    simp only
    cases ht : truthy (some t) with
    | false => exact ⟨s, by simp⟩
    | true =>
      simp only [if_true]
      apply addBubble_returns
      simpa [displays, hg, ht] using h

theorem showResponseText_returns (msg : JVal) (s : ClientState)
    (h : displays (msg.get "responseText") = true) :
    ∃ s1, showResponseText msg s = Except.ok s1 := by
  unfold showResponseText
  cases hg : msg.get "responseText" with
  | none => exact ⟨_, rfl⟩
  | some t =>
    simp only
    cases ht : truthy (some t) with
    | false => exact ⟨s, by simp⟩
    | true =>
      simp only [if_true]
      apply addBubble_returns
      simpa [displays, hg, ht] using h

theorem playAudioChunk_returns (env : Builtins) (msg : JVal) (s : ClientState)
    (h : decodes (msg.get "audioChunk") = true) :
    ∃ s1, playAudioChunk env msg s = Except.ok s1 := by
  unfold playAudioChunk
  cases hg : msg.get "audioChunk" with
  | none => exact ⟨_, rfl⟩
  | some c =>
    simp only
    cases ht : truthy (some c) with
    | false => exact ⟨s, by simp⟩
    | true =>
      simp only [if_true]
      cases hs : c.toStr with
      | none => simp [decodes, hg, ht, hs] at h
      | some text =>
        simp only
        cases hb : atob text with
        | none => simp [decodes, hg, ht, hs, hb] at h
        | some bytes => exact ⟨_, rfl⟩

theorem showError_returns (msg : JVal) (s : ClientState)
    (h : displays (msg.get "error") = true) : ∃ s1, showError msg s = Except.ok s1 := by
  unfold showError
  cases hg : msg.get "error" with
  | none => exact ⟨_, rfl⟩
  | some e =>
    simp only
    cases ht : truthy (some e) with
    | false => exact ⟨s, by simp⟩
    | true =>
      simp only [if_true]
      cases hs : e.toStr with
      | none => simp [displays, hg, ht, hs] at h
      | some text =>
        simp only
        exact addBubble_returns _ _ _ _ rfl

theorem handleMessage_returns (env : Builtins) (msg : JVal) (st : ClientState)
    (h1 : displays (msg.get "transcript") = true)
    (h2 : displays (msg.get "responseText") = true)
    (h3 : decodes (msg.get "audioChunk") = true)
    (h4 : displays (msg.get "error") = true) :
    (handleMessage env msg st).thrown = none := by
  unfold handleMessage
  obtain ⟨s1, e1⟩ := showTranscript_returns msg st h1
  obtain ⟨s2, e2⟩ := showResponseText_returns msg s1 h2
  obtain ⟨s3, e3⟩ := playAudioChunk_returns env msg s2 h3
  obtain ⟨s5, e5⟩ := showError_returns msg (endResponse msg s3) h4
  simp only [e1, e2, e3, e5]

theorem onmessage_of_parsed (env : Builtins) (data : BufferLike) (st : ClientState) (msg : JVal)
    (hp : parseData env data = some msg) (hn : msg.isNull = false) :
    onmessage env data st = handleMessage env msg st := by
  simp [onmessage, hp, hn]

theorem isNull_of_get (msg : JVal) (key : String) (v : JVal) (h : msg.get key = some v) :
    msg.isNull = false := by
  cases msg <;> first | rfl | simp [JVal.get] at h

theorem invariant_of_same_flags (s s1 : ClientState) (h1 : s1.speaking = s.speaking)
    (h2 : s1.interruptBtnDisabled = s.interruptBtnDisabled)
    (h : InterruptOnlyWhileSpeaking s) : InterruptOnlyWhileSpeaking s1 := by
  unfold InterruptOnlyWhileSpeaking at *
  rw [h1, h2]
  exact h

theorem setSpeaking_invariant (isOn : Bool) (s : ClientState) :
    InterruptOnlyWhileSpeaking (setSpeaking isOn s) := by
  unfold InterruptOnlyWhileSpeaking setSpeaking
  cases isOn <;> simp

theorem endResponse_invariant (msg : JVal) (s : ClientState)
    (h : InterruptOnlyWhileSpeaking s) : InterruptOnlyWhileSpeaking (endResponse msg s) := by
  cases he : isResponseEnd (msg.get "event") with
  | true =>
    intro hd
    rw [(endResponse_end msg s he).2.2] at hd
    cases hd
  | false =>
    rw [endResponse_not_end msg s he]
    exact h

theorem playAudioChunk_invariant (env : Builtins) (msg : JVal) (s s1 : ClientState)
    (hk : playAudioChunk env msg s = Except.ok s1)
    (h : InterruptOnlyWhileSpeaking s) : InterruptOnlyWhileSpeaking s1 := by
  obtain ⟨-, h2, h3⟩ := playAudioChunk_ok env msg s s1 hk
  cases hg : msg.get "audioChunk" with
  | none =>
    rw [h2 (by simp [hg, truthy])]
    exact h
  | some c =>
    cases ht : truthy (some c) with
    | false =>
      rw [h2 (by rw [hg]; exact ht)]
      exact h
    | true =>
      intro _
      exact (h3 c hg ht).1

theorem handleMessage_invariant (env : Builtins) (msg : JVal) (st : ClientState)
    (h : InterruptOnlyWhileSpeaking st) :
    InterruptOnlyWhileSpeaking (handleMessage env msg st).state := by
  unfold handleMessage
  cases h1 : showTranscript msg st with
  | error e => exact h
  | ok s1 =>
    have i1 : InterruptOnlyWhileSpeaking s1 :=
      invariant_of_same_flags st s1 (showTranscript_keeps msg st s1 h1).1
        (showTranscript_keeps msg st s1 h1).2.2.1 h
    simp only
    cases h2 : showResponseText msg s1 with
    | error e => exact i1
    | ok s2 =>
      have i2 : InterruptOnlyWhileSpeaking s2 :=
        invariant_of_same_flags s1 s2 (showResponseText_keeps msg s1 s2 h2).1
          (showResponseText_keeps msg s1 s2 h2).2.2.1 i1
      simp only
      cases h3 : playAudioChunk env msg s2 with
      | error e => exact i2
      | ok s3 =>
        have i3 : InterruptOnlyWhileSpeaking (endResponse msg s3) :=
          endResponse_invariant msg s3 (playAudioChunk_invariant env msg s2 s3 h3 i2)
        simp only
        cases h4 : showError msg (endResponse msg s3) with
        | error e => exact i3
        | ok s5 =>
          exact invariant_of_same_flags _ s5 (showError_keeps msg _ s5 h4).1
            (showError_keeps msg _ s5 h4).2.2.1 i3

/-- C8, as stated, fails on a response-text frame: handling `{"responseText":"hi"}` while
listening shows the text but leaves the speaking flag false and the interrupt button disabled. -/
theorem response_text_frame_leaves_speaking_false :
    listeningClient.speaking = false
      ∧ sampleBuiltins.parse "\x7b\"responseText\":\"hi\"\x7d"
          = some (JVal.obj [("responseText", JVal.str "hi")])
      ∧ onmessage sampleBuiltins (BufferLike.text "\x7b\"responseText\":\"hi\"\x7d") listeningClient
          = { state := { listeningClient with
                revEl := [{ className := "bubble rev", textContent := "hi" }] },
              thrown := none }
      ∧ (onmessage sampleBuiltins (BufferLike.text "\x7b\"responseText\":\"hi\"\x7d")
          listeningClient).state.speaking = false :=
  ⟨rfl, rfl, by decide, by decide⟩

/-- C8 amended.  Handling a frame that does not parse as JSON returns for every binary frame,
and once it has returned the speaking flag is set and one chunk has been appended to the
playback buffer.  Handling a JSON frame returns whenever each of `transcript`, `responseText`
and `error` is falsy or converts to a string and `audioChunk` is falsy or valid base64.  When
it has returned on a frame whose `event` is not `response.end`: with a truthy `audioChunk` the
speaking flag is set and the one chunk appended holds the decoded bytes of `audioChunk`; with
a truthy `responseText` and no audio the response pane shows that text (a string unchanged)
and the speaking flag is as it was. -/
theorem audio_frame_sets_speaking_text_frame_does_not (env : Builtins)
    (data : BufferLike) (st : ClientState) :
    (parseData env data = none →
        ((∀ s, data = BufferLike.text s → (env.arrayLength s).isSome = true) →
            (onmessage env data st).thrown = none)
          ∧ ((onmessage env data st).thrown = none →
              (onmessage env data st).state.speaking = true
                ∧ ∃ chunk, (onmessage env data st).state.pendingAudioChunks
                    = st.pendingAudioChunks ++ [chunk]))
      ∧ (∀ msg : JVal, parseData env data = some msg → msg.isNull = false →
          displays (msg.get "transcript") = true → displays (msg.get "responseText") = true →
          decodes (msg.get "audioChunk") = true → displays (msg.get "error") = true →
          (onmessage env data st).thrown = none)
      ∧ (∀ msg c : JVal, parseData env data = some msg →
          msg.get "audioChunk" = some c → truthy (some c) = true →
          isResponseEnd (msg.get "event") = false →
          (onmessage env data st).thrown = none →
          (onmessage env data st).state.speaking = true
            ∧ ∃ text bytes, c.toStr = some text ∧ atob text = some bytes
                ∧ (onmessage env data st).state.pendingAudioChunks
                    = st.pendingAudioChunks ++ [{ bytes := bytes }])
      ∧ (∀ msg r : JVal, parseData env data = some msg →
          msg.get "responseText" = some r → truthy (some r) = true →
          truthy (msg.get "audioChunk") = false →
          isResponseEnd (msg.get "event") = false →
          (onmessage env data st).thrown = none →
          (onmessage env data st).state.speaking = st.speaking
            ∧ (onmessage env data st).state.pendingAudioChunks = st.pendingAudioChunks
            ∧ ∃ t rest, r.toStr = some t
                ∧ (onmessage env data st).state.revEl
                    = st.revEl ++ { className := "bubble rev", textContent := t } :: rest) := by
  refine ⟨?_, ?_, ?_, ?_⟩
  · intro hp
    constructor
    · intro hlen
      cases data with
      | text s =>
        cases hl : env.arrayLength s with
        | none =>
          have := hlen s rfl
          simp [hl] at this
        | some n => simp [onmessage, hp, playPCM16, Uint8Array.new, hl]
      | arrayBuffer bytes => simp [onmessage, hp, playPCM16, Uint8Array.new]
      | blob bytes => simp [onmessage, hp, playPCM16, Uint8Array.new]
    · intro hret
      simp only [onmessage, hp] at hret ⊢
      unfold playPCM16 at hret ⊢
      cases hn : Uint8Array.new env data with
      | error e => simp [hn] at hret
      | ok chunk => exact ⟨rfl, chunk, rfl⟩
  · intro msg hp hn h1 h2 h3 h4
    rw [onmessage_of_parsed env data st msg hp hn]
    exact handleMessage_returns env msg st h1 h2 h3 h4
  · intro msg c hp hc ht he hret
    rw [onmessage_of_parsed env data st msg hp (isNull_of_get msg _ c hc)] at hret ⊢
    obtain ⟨s1, s2, s3, e1, e2, e3, e5⟩ := handleMessage_returned env msg st hret
    obtain ⟨k1, k2, -, -⟩ := showError_keeps msg _ _ e5
    obtain ⟨-, -, a3⟩ := playAudioChunk_ok env msg s2 s3 e3
    obtain ⟨a4, -, text, bytes, a5, a6, a7⟩ := a3 c hc ht
    rw [k1, k2, endResponse_not_end msg s3 he]
    refine ⟨a4, text, bytes, a5, a6, ?_⟩
    rw [a7, (showResponseText_keeps msg s1 s2 e2).2.1, (showTranscript_keeps msg st s1 e1).2.1]
  · intro msg r hp hr ht ha he hret
    rw [onmessage_of_parsed env data st msg hp (isNull_of_get msg _ r hr)] at hret ⊢
    obtain ⟨s1, s2, s3, e1, e2, e3, e5⟩ := handleMessage_returned env msg st hret
    obtain ⟨k1, k2, -, rest, k4⟩ := showError_keeps msg _ _ e5
    obtain ⟨-, a2, -⟩ := playAudioChunk_ok env msg s2 s3 e3
    have a3 : s3 = s2 := a2 ha
    subst a3
    obtain ⟨b1, b2, -, b4⟩ := showResponseText_keeps msg s1 s3 e2
    obtain ⟨t, b5, b6⟩ := b4 r hr ht
    obtain ⟨c1, c2, -, c4⟩ := showTranscript_keeps msg st s1 e1
    rw [k1, k2, k4, endResponse_not_end msg s3 he]
    refine ⟨by rw [b1, c1], by rw [b2, c2], t, rest, b5, ?_⟩
    rw [b6, c4]
    simp

theorem audio_frame_sets_speaking_text_frame_does_not_witness :
    ((onmessage sampleBuiltins (BufferLike.blob [1, 2]) listeningClient).thrown = none
        ∧ ((onmessage sampleBuiltins (BufferLike.blob [1, 2]) listeningClient).thrown = none →
            (onmessage sampleBuiltins (BufferLike.blob [1, 2]) listeningClient).state.speaking = true
              ∧ ∃ chunk,
                  (onmessage sampleBuiltins (BufferLike.blob [1, 2]) listeningClient).state.pendingAudioChunks
                    = listeningClient.pendingAudioChunks ++ [chunk]))
      ∧ (onmessage sampleBuiltins (BufferLike.text "\x7b\"audioChunk\":\"aGk=\"\x7d")
            listeningClient).thrown = none
      ∧ ((onmessage sampleBuiltins (BufferLike.text "\x7b\"audioChunk\":\"aGk=\"\x7d")
            listeningClient).state.speaking = true
          ∧ ∃ text bytes, (JVal.str "aGk=").toStr = some text ∧ atob text = some bytes
              ∧ (onmessage sampleBuiltins (BufferLike.text "\x7b\"audioChunk\":\"aGk=\"\x7d")
                    listeningClient).state.pendingAudioChunks
                  = listeningClient.pendingAudioChunks ++ [{ bytes := bytes }])
      ∧ ((onmessage sampleBuiltins (BufferLike.text "\x7b\"responseText\":\"hi\"\x7d")
            speakingClient).state.speaking = speakingClient.speaking
          ∧ (onmessage sampleBuiltins (BufferLike.text "\x7b\"responseText\":\"hi\"\x7d")
              speakingClient).state.pendingAudioChunks = speakingClient.pendingAudioChunks
          ∧ ∃ t rest, (JVal.str "hi").toStr = some t
              ∧ (onmessage sampleBuiltins (BufferLike.text "\x7b\"responseText\":\"hi\"\x7d")
                    speakingClient).state.revEl
                  = speakingClient.revEl ++ { className := "bubble rev", textContent := t } :: rest) :=
  ⟨⟨((audio_frame_sets_speaking_text_frame_does_not sampleBuiltins (BufferLike.blob [1, 2])
        listeningClient).1 rfl).1 (fun s hs => by cases hs),
    ((audio_frame_sets_speaking_text_frame_does_not sampleBuiltins (BufferLike.blob [1, 2])
        listeningClient).1 rfl).2⟩,
   (audio_frame_sets_speaking_text_frame_does_not sampleBuiltins
      (BufferLike.text "\x7b\"audioChunk\":\"aGk=\"\x7d") listeningClient).2.1
      (JVal.obj [("audioChunk", JVal.str "aGk=")]) rfl rfl rfl rfl (by decide) rfl,
   (audio_frame_sets_speaking_text_frame_does_not sampleBuiltins
      (BufferLike.text "\x7b\"audioChunk\":\"aGk=\"\x7d") listeningClient).2.2.1
      (JVal.obj [("audioChunk", JVal.str "aGk=")]) (JVal.str "aGk=") rfl rfl rfl rfl (by decide),
   (audio_frame_sets_speaking_text_frame_does_not sampleBuiltins
      (BufferLike.text "\x7b\"responseText\":\"hi\"\x7d") speakingClient).2.2.2
      (JVal.obj [("responseText", JVal.str "hi")]) (JVal.str "hi") rfl rfl rfl rfl rfl (by decide)⟩

/-- C9: for a JSON message whose `event` is `response.end`, once the message handler has
returned the speaking flag is false and the pending playback buffer is empty, also when the
message carries an `audioChunk`; and the handler does return whenever each of `transcript`,
`responseText` and `error` is falsy or converts to a string and `audioChunk` is falsy or
converts to valid base64. -/
theorem response_end_clears_speaking_and_buffer (env : Builtins)
    (data : BufferLike) (st : ClientState) (msg : JVal)
    (hp : parseData env data = some msg)
    (he : msg.get "event" = some (JVal.str "response.end")) :
    ((onmessage env data st).thrown = none →
        (onmessage env data st).state.speaking = false
          ∧ (onmessage env data st).state.pendingAudioChunks = [])
      ∧ (displays (msg.get "transcript") = true → displays (msg.get "responseText") = true →
          decodes (msg.get "audioChunk") = true → displays (msg.get "error") = true →
          (onmessage env data st).thrown = none) := by
  have hend : isResponseEnd (msg.get "event") = true := by simp [he, isResponseEnd]
  rw [onmessage_of_parsed env data st msg hp (isNull_of_get msg _ _ he)]
  constructor
  · intro hret
    obtain ⟨s1, s2, s3, -, -, -, e5⟩ := handleMessage_returned env msg st hret
    obtain ⟨k1, k2, -, -⟩ := showError_keeps msg _ _ e5
    rw [k1, k2]
    exact ⟨(endResponse_end msg s3 hend).1, (endResponse_end msg s3 hend).2.1⟩
  · intro h1 h2 h3 h4
    exact handleMessage_returns env msg st h1 h2 h3 h4

theorem response_end_clears_speaking_and_buffer_witness :
    speakingClient.speaking = true
      ∧ (onmessage sampleBuiltins
          (BufferLike.text "\x7b\"audioChunk\":\"aGk=\",\"event\":\"response.end\"\x7d")
          speakingClient).thrown = none
      ∧ (onmessage sampleBuiltins
          (BufferLike.text "\x7b\"audioChunk\":\"aGk=\",\"event\":\"response.end\"\x7d")
          speakingClient).state.speaking = false
      ∧ (onmessage sampleBuiltins
          (BufferLike.text "\x7b\"audioChunk\":\"aGk=\",\"event\":\"response.end\"\x7d")
          speakingClient).state.pendingAudioChunks = [] :=
  ⟨rfl,
   (response_end_clears_speaking_and_buffer sampleBuiltins
      (BufferLike.text "\x7b\"audioChunk\":\"aGk=\",\"event\":\"response.end\"\x7d") speakingClient
      (JVal.obj [("audioChunk", JVal.str "aGk="), ("event", JVal.str "response.end")]) rfl rfl).2
      rfl rfl (by decide) rfl,
   (response_end_clears_speaking_and_buffer sampleBuiltins
      (BufferLike.text "\x7b\"audioChunk\":\"aGk=\",\"event\":\"response.end\"\x7d") speakingClient
      (JVal.obj [("audioChunk", JVal.str "aGk="), ("event", JVal.str "response.end")]) rfl rfl).1
      (by decide)⟩

/-- C10: "the interrupt button is enabled only while the speaking flag is set" is preserved by
`setSpeaking`, by both halves of the socket open handler, by the message handler on every
inbound message (also one on which it raises), by `stop` and by `interrupt`.  The converse is
not kept: from a speaking state with the button enabled, `stop()` and the open handler each
disable the button and leave the speaking flag set. -/
theorem interrupt_button_invariant_preserved :
    (∀ (isOn : Bool) (st : ClientState), InterruptOnlyWhileSpeaking st →
        InterruptOnlyWhileSpeaking (setSpeaking isOn st))
      ∧ (∀ st : ClientState, InterruptOnlyWhileSpeaking st → InterruptOnlyWhileSpeaking (onopen st))
      ∧ (∀ (granted : Option (List Bool)) (st : ClientState), InterruptOnlyWhileSpeaking st →
          InterruptOnlyWhileSpeaking (onopenResume granted st).state)
      ∧ (∀ (env : Builtins) (data : BufferLike) (st : ClientState),
          InterruptOnlyWhileSpeaking st →
          InterruptOnlyWhileSpeaking (onmessage env data st).state)
      ∧ (∀ st : ClientState, InterruptOnlyWhileSpeaking st →
          InterruptOnlyWhileSpeaking (stop st).state)
      ∧ (∀ st : ClientState, InterruptOnlyWhileSpeaking st →
          InterruptOnlyWhileSpeaking (interrupt st).state)
      ∧ (speakingClient.speaking = true ∧ speakingClient.interruptBtnDisabled = false
          ∧ (stop speakingClient).state.speaking = true
          ∧ (stop speakingClient).state.interruptBtnDisabled = true
          ∧ (onopen speakingClient).speaking = true
          ∧ (onopen speakingClient).interruptBtnDisabled = true) := by
  refine ⟨fun isOn st _ => setSpeaking_invariant isOn st, ?_, ?_, ?_, ?_, ?_, by decide⟩
  · intro st _
    simp [InterruptOnlyWhileSpeaking, onopen]
  · intro granted st h
    unfold onopenResume
    cases granted with
    | none => exact h
    | some tracks =>
      simp only
      cases hw : st.ws with
      | none => exact h
      | some w =>
        simp only
        cases hs : w.send (JSON.stringify (startMessage st.lang)) with
        | error e => exact h
        | ok w1 => exact h
  · intro env data st h
    unfold onmessage
    cases hp : parseData env data with
    | none =>
      simp only
      cases hk : playPCM16 env data st with
      | error e => exact h
      | ok st1 => exact setSpeaking_invariant _ _
    | some msg =>
      simp only
      cases hn : msg.isNull with
      | true => exact h
      | false => exact handleMessage_invariant env msg st h
  · intro st _
    unfold InterruptOnlyWhileSpeaking stop
    simp only
    split <;> (try split) <;> (try split) <;> (try split) <;> simp
  · intro st h
    unfold interrupt
    cases hw : st.ws with
    | none => exact h
    | some w =>
      simp only
      split
      · exact h
      · cases hs : w.send (JSON.stringify interruptMessage) with
        | error e => exact h
        | ok w1 => exact setSpeaking_invariant _ _

theorem interrupt_button_invariant_preserved_witness :
    InterruptOnlyWhileSpeaking (setSpeaking true listeningClient)
      ∧ InterruptOnlyWhileSpeaking (onopen speakingClient)
      ∧ InterruptOnlyWhileSpeaking (onopenResume (some [true]) speakingClient).state
      ∧ InterruptOnlyWhileSpeaking
          (onmessage sampleBuiltins (BufferLike.text "null") speakingClient).state
      ∧ InterruptOnlyWhileSpeaking (stop speakingClient).state
      ∧ InterruptOnlyWhileSpeaking (interrupt speakingClient).state :=
  ⟨interrupt_button_invariant_preserved.1 true listeningClient (fun h => absurd h (by decide)),
   interrupt_button_invariant_preserved.2.1 speakingClient (fun _ => rfl),
   interrupt_button_invariant_preserved.2.2.1 (some [true]) speakingClient (fun _ => rfl),
   interrupt_button_invariant_preserved.2.2.2.1 sampleBuiltins (BufferLike.text "null")
     speakingClient (fun _ => rfl),
   interrupt_button_invariant_preserved.2.2.2.2.1 speakingClient (fun _ => rfl),
   interrupt_button_invariant_preserved.2.2.2.2.2.1 speakingClient (fun _ => rfl)⟩
